import Mathlib

/-!
Shallow embedding of the at-api-rs repository (GTFS-realtime client for the
Auckland Transport API), covering:

* the entity data model of src/types/gtfs.rs and src/types/mod.rs,
* the serde-style JSON decoders those types derive (including the custom
  bearing decoder deserialize_bearing and the #[serde(default)] fields),
* the identifier normalizer Entity::substr_to_char, and
* the merge step of Realtime::fetch_combined in src/realtime.rs.

Modelling conventions:
* JSON numbers are split into the three classes serde_json distinguishes:
  non-negative integers (u64), negative integers (i64) and non-integral
  floating values; f32/f64 values are modelled as rationals, which is exact
  for every value the claims touch.
* Rust String / &str is Lean String (a list of Unicode scalar values with
  UTF-8 byte sizes available through Char.utf8Size).
* The HashMap of fetch_combined is modelled as an association list with
  insert-overwrite semantics; its iteration order is one valid enumeration
  (hash iteration order is unspecified, and no claim depends on order).
* Fallible decoding is Except String.
-/

namespace AT

/-- The number classes serde_json distinguishes when driving a visitor:
a non-negative integer calls visit_u64, a negative integer visit_i64 and a
non-integral number the floating visit path. -/
inductive JNum : Type
  | u : Nat → JNum
  | i : Int → JNum
  | f : Rat → JNum

/-- A JSON wire value. -/
inductive Json : Type
  | null : Json
  | bool : Bool → Json
  | num : JNum → Json
  | str : String → Json
  | arr : List Json → Json
  | obj : List (String × Json) → Json

/-- StopTimeUpdate.schedule_relationship codes (gtfs.rs, repr(u8)). -/
inductive ScheduleRelationship : Type
  | Scheduled
  | Skipped
  | NoData
deriving DecidableEq, Repr

/-- VehiclePosition.current_status codes (gtfs.rs, repr(u8)). -/
inductive VehicleStopStatus : Type
  | IncomingAt
  | StoppedAt
  | InTransitTo
deriving DecidableEq, Repr

/-- Congestion level codes (gtfs.rs, repr(u8)). -/
inductive CongestionLevel : Type
  | UnknownCongestionLevel
  | RunningSmoothly
  | StopAndGo
  | Congestion
  | SevereCongestion
deriving DecidableEq, Repr

/-- Occupancy status codes (gtfs.rs, repr(u8)). -/
inductive OccupancyStatus : Type
  | Empty
  | ManySeatsAvailable
  | FewSeatsAvailable
  | StandingRoomOnly
  | CrushedStandingRoomOnly
  | Full
  | NotAcceptingPassengers
deriving DecidableEq, Repr

/-- TripDescriptor.schedule_relationship codes (gtfs.rs, repr(u8)). -/
inductive ScheduleRelationshipTripDescriptor : Type
  | Scheduled
  | Added
  | Unscheduled
  | Cancelled
deriving DecidableEq, Repr

/-- Header.incrementality codes (types/mod.rs, repr(u8)). -/
inductive Incrementality : Type
  | FullDataset
  | Differential
deriving DecidableEq, Repr

/-- gtfs.rs struct TripDescriptor. u32 is modelled as Nat (range-checked at
decode time), f32 as Rat. -/
structure TripDescriptor : Type where
  trip_id : Option String
  route_id : Option String
  direction_id : Option Nat
  start_time : Option String
  start_date : Option String
  schedule_relationship : Option ScheduleRelationshipTripDescriptor
deriving DecidableEq, Repr

/-- gtfs.rs struct VehicleDescriptor. -/
structure VehicleDescriptor : Type where
  id : Option String
  label : Option String
  license_plate : Option String
deriving DecidableEq, Repr

/-- gtfs.rs struct StopTimeEvent. -/
structure StopTimeEvent : Type where
  delay : Option Int
  time : Option Int
  uncertainty : Option Int
deriving DecidableEq, Repr

/-- gtfs.rs struct StopTimeUpdate; schedule_relationship carries
serde(default) in the source, substituting Scheduled when absent. -/
structure StopTimeUpdate : Type where
  stop_sequence : Option Nat
  stop_id : Option String
  arrival : Option StopTimeEvent
  departure : Option StopTimeEvent
  schedule_relationship : ScheduleRelationship
deriving DecidableEq, Repr

/-- gtfs.rs struct Position (latitude/longitude required f32, bearing decoded
by deserialize_bearing with serde(default)). -/
structure Position : Type where
  latitude : Rat
  longitude : Rat
  bearing : Option Rat
  odometer : Option Rat
  speed : Option Rat
deriving DecidableEq, Repr

/-- gtfs.rs struct VehiclePosition; current_status carries serde(default),
substituting InTransitTo when absent. -/
structure VehiclePosition : Type where
  trip : Option TripDescriptor
  vehicle : Option VehicleDescriptor
  position : Option Position
  current_stop_sequence : Option Nat
  stop_id : Option String
  current_status : VehicleStopStatus
  timestamp : Option Nat
  congestion_level : Option CongestionLevel
  occupancy_status : Option OccupancyStatus
deriving DecidableEq, Repr

/-- gtfs.rs struct TripUpdate (trip is a required field). -/
structure TripUpdate : Type where
  trip : TripDescriptor
  vehicle : Option VehicleDescriptor
  stop_time_update : Option StopTimeUpdate
  timestamp : Option Nat
  delay : Option Int
deriving DecidableEq, Repr

/-- gtfs.rs struct Entity; is_deleted carries serde(default), substituting
false when absent. -/
structure Entity : Type where
  id : String
  trip_update : Option TripUpdate
  vehicle : Option VehiclePosition
  is_deleted : Bool
deriving DecidableEq, Repr

/-- types/mod.rs struct Header; incrementality carries serde(default),
substituting FullDataset when absent. -/
structure Header : Type where
  gtfs_realtime_version : String
  incrementality : Incrementality
  timestamp : Option Rat
deriving DecidableEq, Repr

/-- Field lookup in a decoded JSON object (serde derive reads the first
occurrence of a field name). -/
def jLookup (fs : List (String × Json)) (name : String) : Option Json :=
  (fs.find? (fun p => p.1 = name)).map (fun p => p.2)

/-- A required struct field: absence is a decode error (serde derive's
missing_field). -/
def reqField {α : Type} (fs : List (String × Json)) (name : String)
    (dec : Json → Except String α) : Except String α :=
  match jLookup fs name with
  | none => Except.error (String.append "missing field " name)
  | some j => dec j

/-- An Option struct field: absence or an explicit null decodes to none,
anything else runs the inner decoder (serde's Option semantics). -/
def optField {α : Type} (fs : List (String × Json)) (name : String)
    (dec : Json → Except String α) : Except String (Option α) :=
  match jLookup fs name with
  | none => Except.ok none
  | some Json.null => Except.ok none
  | some j => (dec j).map some

/-- A serde(default) struct field: absence decodes to the given default,
a present value runs the decoder (which may itself fail). -/
def defField {α : Type} (fs : List (String × Json)) (name : String)
    (dec : Json → Except String α) (d : α) : Except String α :=
  match jLookup fs name with
  | none => Except.ok d
  | some j => dec j

/-- Decoder for a JSON string. -/
def decString : Json → Except String String
  | Json.str s => Except.ok s
  | _ => Except.error "invalid type: expected string"

/-- Decoder for a JSON bool. -/
def decBool : Json → Except String Bool
  | Json.bool b => Except.ok b
  | _ => Except.error "invalid type: expected bool"

/-- Decoder for u64: only the non-negative integer class is accepted. -/
def decU64 : Json → Except String Nat
  | Json.num (JNum.u n) => Except.ok n
  | _ => Except.error "invalid type: expected u64"

/-- Decoder for u32: a non-negative integer within the 32-bit range. -/
def decU32 : Json → Except String Nat
  | Json.num (JNum.u n) =>
      if n < 4294967296 then Except.ok n
      else Except.error "u32 out of range"
  | _ => Except.error "invalid type: expected u32"

/-- Decoder for i32: an integer within the signed 32-bit range. -/
def decI32 : Json → Except String Int
  | Json.num (JNum.u n) =>
      if n < 2147483648 then Except.ok (Int.ofNat n)
      else Except.error "i32 out of range"
  | Json.num (JNum.i m) =>
      if -2147483648 ≤ m then Except.ok m
      else Except.error "i32 out of range"
  | _ => Except.error "invalid type: expected i32"

/-- Decoder for i64: an integer within the signed 64-bit range. -/
def decI64 : Json → Except String Int
  | Json.num (JNum.u n) =>
      if n < 9223372036854775808 then Except.ok (Int.ofNat n)
      else Except.error "i64 out of range"
  | Json.num (JNum.i m) =>
      if -9223372036854775808 ≤ m then Except.ok m
      else Except.error "i64 out of range"
  | _ => Except.error "invalid type: expected i64"

/-- Decoder for a floating field (f32/f64 modelled as Rat): any number class
is accepted, as serde promotes integers to floats. -/
def decFloat : Json → Except String Rat
  | Json.num (JNum.u n) => Except.ok (n : Rat)
  | Json.num (JNum.i m) => Except.ok (m : Rat)
  | Json.num (JNum.f q) => Except.ok q
  | _ => Except.error "invalid type: expected float"

/-- serde_repr decoder for ScheduleRelationship: codes 0..2. -/
def decodeScheduleRelationship : Json → Except String ScheduleRelationship
  | Json.num (JNum.u n) =>
      if n = 0 then Except.ok ScheduleRelationship.Scheduled
      else if n = 1 then Except.ok ScheduleRelationship.Skipped
      else if n = 2 then Except.ok ScheduleRelationship.NoData
      else Except.error "invalid ScheduleRelationship code"
  | _ => Except.error "invalid type: expected ScheduleRelationship code"

/-- serde_repr decoder for VehicleStopStatus: codes 0..2. -/
def decodeVehicleStopStatus : Json → Except String VehicleStopStatus
  | Json.num (JNum.u n) =>
      if n = 0 then Except.ok VehicleStopStatus.IncomingAt
      else if n = 1 then Except.ok VehicleStopStatus.StoppedAt
      else if n = 2 then Except.ok VehicleStopStatus.InTransitTo
      else Except.error "invalid VehicleStopStatus code"
  | _ => Except.error "invalid type: expected VehicleStopStatus code"

/-- serde_repr decoder for CongestionLevel: codes 0..4. -/
def decodeCongestionLevel : Json → Except String CongestionLevel
  | Json.num (JNum.u n) =>
      if n = 0 then Except.ok CongestionLevel.UnknownCongestionLevel
      else if n = 1 then Except.ok CongestionLevel.RunningSmoothly
      else if n = 2 then Except.ok CongestionLevel.StopAndGo
      else if n = 3 then Except.ok CongestionLevel.Congestion
      else if n = 4 then Except.ok CongestionLevel.SevereCongestion
      else Except.error "invalid CongestionLevel code"
  | _ => Except.error "invalid type: expected CongestionLevel code"

/-- serde_repr decoder for OccupancyStatus: codes 0..6. -/
def decodeOccupancyStatus : Json → Except String OccupancyStatus
  | Json.num (JNum.u n) =>
      if n = 0 then Except.ok OccupancyStatus.Empty
      else if n = 1 then Except.ok OccupancyStatus.ManySeatsAvailable
      else if n = 2 then Except.ok OccupancyStatus.FewSeatsAvailable
      else if n = 3 then Except.ok OccupancyStatus.StandingRoomOnly
      else if n = 4 then Except.ok OccupancyStatus.CrushedStandingRoomOnly
      else if n = 5 then Except.ok OccupancyStatus.Full
      else if n = 6 then Except.ok OccupancyStatus.NotAcceptingPassengers
      else Except.error "invalid OccupancyStatus code"
  | _ => Except.error "invalid type: expected OccupancyStatus code"

/-- serde_repr decoder for ScheduleRelationshipTripDescriptor: codes 0..3. -/
def decodeSRTripDescriptor : Json → Except String ScheduleRelationshipTripDescriptor
  | Json.num (JNum.u n) =>
      if n = 0 then Except.ok ScheduleRelationshipTripDescriptor.Scheduled
      else if n = 1 then Except.ok ScheduleRelationshipTripDescriptor.Added
      else if n = 2 then Except.ok ScheduleRelationshipTripDescriptor.Unscheduled
      else if n = 3 then Except.ok ScheduleRelationshipTripDescriptor.Cancelled
      else Except.error "invalid ScheduleRelationship code for TripDescriptor"
  | _ => Except.error "invalid type: expected ScheduleRelationship code"

/-- serde_repr decoder for Incrementality: codes 0..1. -/
def decodeIncrementality : Json → Except String Incrementality
  | Json.num (JNum.u n) =>
      if n = 0 then Except.ok Incrementality.FullDataset
      else if n = 1 then Except.ok Incrementality.Differential
      else Except.error "invalid Incrementality code"
  | _ => Except.error "invalid type: expected Incrementality code"

/-- Model of Rust str::parse for a floating literal, restricted to the
decimal forms (optional sign, integer digits, optional fractional digits);
the exotic forms (exponents, infinities, NaN) do not occur in the claims. -/
def digitsVal (cs : List Char) : Nat :=
  cs.foldl (fun acc c => 10 * acc + (c.toNat - 48)) 0

/-- Parse a decimal floating literal to a rational, or none on any
non-numeric input (mirrors the failure behaviour of str::parse). -/
def parseNum (s : String) : Option Rat :=
  let cs := s.toList
  let signAndRest : Rat × List Char :=
    match cs with
    | '-' :: rest => (-1, rest)
    | '+' :: rest => (1, rest)
    | _ => (1, cs)
  let sign := signAndRest.1
  let body := signAndRest.2
  let intPart := body.takeWhile Char.isDigit
  let rest := body.dropWhile Char.isDigit
  match rest with
  | [] =>
      if intPart.isEmpty then none
      else some (sign * (digitsVal intPart : Rat))
  | '.' :: frac =>
      if frac.all Char.isDigit && !(intPart.isEmpty && frac.isEmpty) then
        some (sign * ((digitsVal intPart : Rat)
          + (digitsVal frac : Rat) / (10 : Rat) ^ frac.length))
      else none
  | _ => none

/-- The visitor inside deserialize_bearing (gtfs.rs): a floating wire value
is accepted as is (visit_f32), a non-negative integer must fit in i16
(visit_u64 with i16 try_into), a string is parsed as a float (visit_str),
and every other wire shape hits a default visitor method and errors. -/
def bearingVisitor : Json → Except String Rat
  | Json.num (JNum.f q) => Except.ok q
  | Json.num (JNum.u n) =>
      if n ≤ 32767 then Except.ok (n : Rat)
      else Except.error "out of range integral type conversion attempted"
  | Json.str s =>
      match parseNum s with
      | some q => Except.ok q
      | none => Except.error "invalid float literal"
  | _ => Except.error "invalid type for bearing"

/-- gtfs.rs deserialize_bearing: runs the visitor and then discards any
error with Result::ok, so the overall decode always succeeds, yielding
none whenever the visitor failed. -/
def deserialize_bearing (j : Json) : Except String (Option Rat) :=
  Except.ok (bearingVisitor j).toOption

/-- serde decoder for StopTimeEvent. -/
def decodeStopTimeEvent : Json → Except String StopTimeEvent
  | Json.obj fs => do
      let delay ← optField fs "delay" decI32
      let time ← optField fs "time" decI64
      let uncertainty ← optField fs "uncertainty" decI32
      pure ⟨delay, time, uncertainty⟩
  | _ => Except.error "invalid type: expected StopTimeEvent object"

/-- serde decoder for StopTimeUpdate; schedule_relationship defaults to
Scheduled when the field is absent. -/
def decodeStopTimeUpdate : Json → Except String StopTimeUpdate
  | Json.obj fs => do
      let stop_sequence ← optField fs "stop_sequence" decU32
      let stop_id ← optField fs "stop_id" decString
      let arrival ← optField fs "arrival" decodeStopTimeEvent
      let departure ← optField fs "departure" decodeStopTimeEvent
      let schedule_relationship ← defField fs "schedule_relationship"
        decodeScheduleRelationship ScheduleRelationship.Scheduled
      pure ⟨stop_sequence, stop_id, arrival, departure, schedule_relationship⟩
  | _ => Except.error "invalid type: expected StopTimeUpdate object"

/-- serde decoder for TripDescriptor. -/
def decodeTripDescriptor : Json → Except String TripDescriptor
  | Json.obj fs => do
      let trip_id ← optField fs "trip_id" decString
      let route_id ← optField fs "route_id" decString
      let direction_id ← optField fs "direction_id" decU32
      let start_time ← optField fs "start_time" decString
      let start_date ← optField fs "start_date" decString
      let schedule_relationship ← optField fs "schedule_relationship"
        decodeSRTripDescriptor
      pure ⟨trip_id, route_id, direction_id, start_time, start_date,
        schedule_relationship⟩
  | _ => Except.error "invalid type: expected TripDescriptor object"

/-- serde decoder for VehicleDescriptor. -/
def decodeVehicleDescriptor : Json → Except String VehicleDescriptor
  | Json.obj fs => do
      let id ← optField fs "id" decString
      let label ← optField fs "label" decString
      let license_plate ← optField fs "license_plate" decString
      pure ⟨id, label, license_plate⟩
  | _ => Except.error "invalid type: expected VehicleDescriptor object"

/-- serde decoder for Position; bearing combines serde(default) with the
custom deserialize_bearing function, exactly as annotated in gtfs.rs. -/
def decodePosition : Json → Except String Position
  | Json.obj fs => do
      let latitude ← reqField fs "latitude" decFloat
      let longitude ← reqField fs "longitude" decFloat
      let bearing ← defField fs "bearing" deserialize_bearing none
      let odometer ← optField fs "odometer" decFloat
      let speed ← optField fs "speed" decFloat
      pure ⟨latitude, longitude, bearing, odometer, speed⟩
  | _ => Except.error "invalid type: expected Position object"

/-- serde decoder for VehiclePosition; current_status defaults to
InTransitTo when the field is absent. -/
def decodeVehiclePosition : Json → Except String VehiclePosition
  | Json.obj fs => do
      let trip ← optField fs "trip" decodeTripDescriptor
      let vehicle ← optField fs "vehicle" decodeVehicleDescriptor
      let position ← optField fs "position" decodePosition
      let current_stop_sequence ← optField fs "current_stop_sequence" decU32
      let stop_id ← optField fs "stop_id" decString
      let current_status ← defField fs "current_status"
        decodeVehicleStopStatus VehicleStopStatus.InTransitTo
      let timestamp ← optField fs "timestamp" decU64
      let congestion_level ← optField fs "congestion_level" decodeCongestionLevel
      let occupancy_status ← optField fs "occupancy_status" decodeOccupancyStatus
      pure ⟨trip, vehicle, position, current_stop_sequence, stop_id,
        current_status, timestamp, congestion_level, occupancy_status⟩
  | _ => Except.error "invalid type: expected VehiclePosition object"

/-- serde decoder for TripUpdate (trip is required). -/
def decodeTripUpdate : Json → Except String TripUpdate
  | Json.obj fs => do
      let trip ← reqField fs "trip" decodeTripDescriptor
      let vehicle ← optField fs "vehicle" decodeVehicleDescriptor
      let stop_time_update ← optField fs "stop_time_update" decodeStopTimeUpdate
      let timestamp ← optField fs "timestamp" decU64
      let delay ← optField fs "delay" decI32
      pure ⟨trip, vehicle, stop_time_update, timestamp, delay⟩
  | _ => Except.error "invalid type: expected TripUpdate object"

/-- serde decoder for Entity; is_deleted defaults to false when absent. -/
def decodeEntity : Json → Except String Entity
  | Json.obj fs => do
      let id ← reqField fs "id" decString
      let trip_update ← optField fs "trip_update" decodeTripUpdate
      let vehicle ← optField fs "vehicle" decodeVehiclePosition
      let is_deleted ← defField fs "is_deleted" decBool false
      pure ⟨id, trip_update, vehicle, is_deleted⟩
  | _ => Except.error "invalid type: expected Entity object"

/-- serde decoder for Header (types/mod.rs); incrementality defaults to
FullDataset when absent. -/
def decodeHeader : Json → Except String Header
  | Json.obj fs => do
      let gtfs_realtime_version ← reqField fs "gtfs_realtime_version" decString
      let incrementality ← defField fs "incrementality"
        decodeIncrementality Incrementality.FullDataset
      let timestamp ← optField fs "timestamp" decFloat
      pure ⟨gtfs_realtime_version, incrementality, timestamp⟩
  | _ => Except.error "invalid type: expected Header object"

/-- Byte index of the first occurrence of a character, as Rust str::find
computes it: the sum of the UTF-8 byte sizes of the preceding characters. -/
def findByteIdx (c : Char) : List Char → Option Nat
  | [] => none
  | x :: xs =>
      if x = c then some 0
      else (findByteIdx c xs).map (fun n => x.utf8Size + n)

/-- gtfs.rs Entity::substr_to_char: take str.find(c) characters (note:
find returns a byte index, take counts characters — modelled exactly as
the source composes them) and collect them into a new string; none when
the separator is absent. -/
def substr_to_char (s : String) (c : Char) : Option String :=
  (findByteIdx c s.toList).map (fun n => String.mk (s.toList.take n))

/-- Association-list model of the HashMap built in fetch_combined.
Insert removes any previous binding of the key and appends the new one
(HashMap::insert overwrite semantics; iteration order of a HashMap is
unspecified, and this model fixes one valid enumeration). -/
def insertAssoc (m : List (String × Entity)) (k : String) (v : Entity) :
    List (String × Entity) :=
  m.filter (fun p => p.1 ≠ k) ++ [(k, v)]

/-- HashMap::get on the association-list model. -/
def lookupId (m : List (String × Entity)) (k : String) : Option Entity :=
  (m.find? (fun p => p.1 = k)).map (fun p => p.2)

/-- realtime.rs: the collect into a HashMap keyed by each entity's id
(from resp.response.entity, in input order — later inserts overwrite). -/
def indexById (es : List Entity) : List (String × Entity) :=
  es.foldl (fun m e => insertAssoc m e.id e) []

/-- realtime.rs fn merge: resolve entity → vehicle → trip → trip_id, look
the trip_id up in the index, and if found return a clone of the entity,
with its trip_update replaced only when the matched entity's trip_update
is present. -/
def merge (ent : Entity) (hm : List (String × Entity)) : Option Entity := do
  let vp ← ent.vehicle
  let trip ← vp.trip
  let trip_id ← trip.trip_id
  let tu_ent ← lookupId hm trip_id
  let entity :=
    match tu_ent.trip_update with
    | some trip_update => { ent with trip_update := some trip_update }
    | none => ent
  some entity

/-- realtime.rs fetch_combined, merge stage: iterate the index and keep
every successful merge (the for loop pushing merge results). -/
def fetchCombinedMerged (es : List Entity) : List Entity :=
  (indexById es).filterMap (fun p => merge p.2 (indexById es))

/-- The last-write-wins characterization of indexing stated from the spec's
words (claim C8), for comparison with the code's index: the latest entity in
input order whose id equals the key. -/
def specLastWriteWins (es : List Entity) (k : String) : Option Entity :=
  es.foldl (fun acc e => if e.id = k then some e else acc) none

/-- A trip descriptor naming trip T1. -/
def tdT1 : TripDescriptor := ⟨some "T1", none, none, none, none, none⟩

/-- An empty trip descriptor. -/
def tdEmpty : TripDescriptor := ⟨none, none, none, none, none, none⟩

/-- A vehicle position linked to trip T1. -/
def vpT1 : VehiclePosition :=
  ⟨some tdT1, none, none, none, none, VehicleStopStatus.InTransitTo, none, none, none⟩

/-- A trip update with delay 30. -/
def tuDelay30 : TripUpdate := ⟨tdEmpty, none, none, none, some 30⟩

/-- A trip update with delay 99. -/
def tuDelay99 : TripUpdate := ⟨tdEmpty, none, none, none, some 99⟩

/-- A vehicle-position entity for trip T1 that already carries its own trip
update (delay 99). -/
def entV : Entity := ⟨"V1", some tuDelay99, some vpT1, false⟩

/-- An entity with id T1 carrying neither a trip update nor a vehicle. -/
def entT : Entity := ⟨"T1", none, none, false⟩

/-- A trip-updates entity with id T1 carrying a trip update (delay 30). -/
def entTU : Entity := ⟨"T1", some tuDelay30, none, false⟩

/-- A vehicle-position entity whose id T1 equals its own trip id, carrying
no trip update. -/
def entSelf : Entity := ⟨"T1", none, some vpT1, false⟩

/-- Decidable equality for decode results. -/
instance {ε α : Type} [DecidableEq ε] [DecidableEq α] : DecidableEq (Except ε α) := fun x y =>
  match x, y with
  | Except.error a, Except.error b =>
      if h : a = b then isTrue (congrArg Except.error h)
      else isFalse (fun hh => h (by injection hh))
  | Except.error _, Except.ok _ => isFalse (fun hh => by injection hh)
  | Except.ok _, Except.error _ => isFalse (fun hh => by injection hh)
  | Except.ok a, Except.ok b =>
      if h : a = b then isTrue (congrArg Except.ok h)
      else isFalse (fun hh => h (by injection hh))

/-- Inversion for a successful Except bind. -/
theorem exceptBind_ok {α β : Type} {e : Except String α} {f : α → Except String β}
    {b : β} (h : e >>= f = Except.ok b) :
    ∃ a, e = Except.ok a ∧ f a = Except.ok b := by
  cases e with
  | error msg => simp [Bind.bind, Except.bind] at h
  | ok a => exact ⟨a, rfl, by simpa [Bind.bind, Except.bind] using h⟩

/-- Inversion for a successful Option bind. -/
theorem optionBind_some {α β : Type} {o : Option α} {f : α → Option β} {b : β}
    (h : o >>= f = some b) : ∃ a, o = some a ∧ f a = some b := by
  cases o with
  | none => simp [Bind.bind, Option.bind] at h
  | some a => exact ⟨a, rfl, by simpa [Bind.bind, Option.bind] using h⟩

/-- Looking a key up after an insert: the inserted binding wins on its own
key and every other key is unaffected. -/
theorem lookupId_insertAssoc (m : List (String × Entity)) (k : String)
    (v : Entity) (q : String) :
    lookupId (insertAssoc m k v) q = if q = k then some v else lookupId m q := by
  by_cases hq : q = k
  · subst hq
    have hnone : (List.filter (fun p => decide ¬(p.1 = q)) m).find?
        (fun p => decide (p.1 = q)) = none := by
      rw [List.find?_eq_none]
      intro x hx
      have hxk := List.of_mem_filter hx
      simp only [decide_not, Bool.not_eq_true', decide_eq_false_iff_not] at hxk
      simp only [decide_eq_true_eq]
      exact hxk
    simp [insertAssoc, lookupId, List.find?_append, hnone]
  · have hpred : (fun (a : String × Entity) => (!decide (a.1 = k)) && decide (a.1 = q))
        = (fun (a : String × Entity) => decide (a.1 = q)) := by
      funext a
      by_cases h : a.1 = q
      · have hk : ¬ a.1 = k := fun hh => hq (by rw [← h, hh])
        simp [h, hk, hq]
      · simp [h]
    have hkq : ¬ k = q := fun hh => hq hh.symm
    simp [insertAssoc, lookupId, List.find?_append, List.find?_filter, hpred, hq, hkq]

/-- Folding inserts corresponds to a last-write-wins fold on lookups. -/
theorem lookupId_foldl (es : List Entity) (m : List (String × Entity)) (k : String) :
    lookupId (es.foldl (fun acc e => insertAssoc acc e.id e) m) k =
      es.foldl (fun acc e => if e.id = k then some e else acc) (lookupId m k) := by
  induction es generalizing m with
  | nil => rfl
  | cons e es ih =>
      simp only [List.foldl_cons]
      rw [ih, lookupId_insertAssoc]
      by_cases h : e.id = k
      · simp [h]
      · have : ¬ k = e.id := fun hh => h hh.symm
        simp [h, this]

/-- Membership after an insert comes from the old map or is the new pair. -/
theorem mem_insertAssoc {m : List (String × Entity)} {k : String} {v : Entity}
    {p : String × Entity} (h : p ∈ insertAssoc m k v) : p ∈ m ∨ p = (k, v) := by
  simp only [insertAssoc, List.mem_append, List.mem_singleton] at h
  rcases h with h | h
  · exact Or.inl (List.mem_of_mem_filter h)
  · exact Or.inr h

/-- Every pair in the folded index comes from the initial map or is built
from an input entity as (id, entity). -/
theorem indexById_aux_mem :
    ∀ (es : List Entity) (m : List (String × Entity)) (p : String × Entity),
      p ∈ es.foldl (fun acc e => insertAssoc acc e.id e) m →
      p ∈ m ∨ ∃ e, e ∈ es ∧ p = (e.id, e) := by
  intro es
  induction es with
  | nil => intro m p h; exact Or.inl h
  | cons e es ih =>
      intro m p h
      simp only [List.foldl_cons] at h
      rcases ih _ p h with hm | ⟨e', he', hp⟩
      · rcases mem_insertAssoc hm with h1 | h1
        · exact Or.inl h1
        · exact Or.inr ⟨e, by simp, h1⟩
      · exact Or.inr ⟨e', by simp [he'], hp⟩

/-- Every pair of the index is (e.id, e) for an input entity e. -/
theorem indexById_pair (es : List Entity) (p : String × Entity)
    (h : p ∈ indexById es) : p.2 ∈ es ∧ p.1 = p.2.id := by
  rcases indexById_aux_mem es [] p h with hm | ⟨e, he, hp⟩
  · simp at hm
  · subst hp; exact ⟨he, rfl⟩

/-- Inserting keeps the keys pairwise distinct. -/
theorem insertAssoc_keys_nodup (m : List (String × Entity)) (k : String) (v : Entity)
    (h : ((m.map Prod.fst)).Pairwise (fun a b => a ≠ b)) :
    (((insertAssoc m k v).map Prod.fst)).Pairwise (fun a b => a ≠ b) := by
  simp only [insertAssoc, List.map_append]
  rw [List.pairwise_append]
  refine ⟨?_, by simp, ?_⟩
  · exact h.sublist ((List.filter_sublist m).map Prod.fst)
  · intro a ha b hb
    simp only [List.map_cons, List.map_nil, List.mem_singleton] at hb
    subst hb
    simp only [List.mem_map, List.mem_filter, decide_eq_true_eq] at ha
    obtain ⟨p, ⟨hpm, hpk⟩, rfl⟩ := ha
    exact hpk

/-- The keys of the index are pairwise distinct. -/
theorem indexById_keys_nodup (es : List Entity) :
    (((indexById es).map Prod.fst)).Pairwise (fun a b => a ≠ b) := by
  have aux : ∀ (l : List Entity) (m : List (String × Entity)),
      ((m.map Prod.fst)).Pairwise (fun a b => a ≠ b) →
      (((l.foldl (fun acc e => insertAssoc acc e.id e) m).map Prod.fst)).Pairwise
        (fun a b => a ≠ b) := by
    intro l
    induction l with
    | nil => intro m hm; exact hm
    | cons e l ih =>
        intro m hm
        simp only [List.foldl_cons]
        exact ih _ (insertAssoc_keys_nodup m e.id e hm)
  exact aux es [] (by simp)

/-- A successful merge preserves the entity id. -/
theorem merge_id (ent : Entity) (hm : List (String × Entity)) (e : Entity)
    (h : merge ent hm = some e) : e.id = ent.id := by
  simp only [merge] at h
  obtain ⟨vp, h1, h⟩ := optionBind_some h
  obtain ⟨td, h2, h⟩ := optionBind_some h
  obtain ⟨tid, h3, h⟩ := optionBind_some h
  obtain ⟨tue, h4, h⟩ := optionBind_some h
  cases htu : tue.trip_update <;> simp [htu] at h <;> simp [← h]

/-- Mapping ids over a filterMap whose function reports the pair's key as
the output id preserves pairwise distinctness of the keys. -/
theorem pairwise_ids_filterMap :
    ∀ (l : List (String × Entity)) (f : String × Entity → Option Entity),
      (∀ p, p ∈ l → ∀ e, f p = some e → e.id = p.1) →
      ((l.map Prod.fst).Pairwise (fun a b => a ≠ b)) →
      (((l.filterMap f).map Entity.id).Pairwise (fun a b => a ≠ b)) := by
  intro l
  induction l with
  | nil => intro f _ _; simp
  | cons p l ih =>
      intro f hf hp
      rw [List.map_cons, List.pairwise_cons] at hp
      obtain ⟨hhead, htail⟩ := hp
      rw [List.filterMap_cons]
      cases hfp : f p with
      | none => exact ih f (fun q hq => hf q (by simp [hq])) htail
      | some e =>
          rw [List.map_cons, List.pairwise_cons]
          refine ⟨?_, ih f (fun q hq => hf q (by simp [hq])) htail⟩
          intro x hx
          simp only [List.mem_map, List.mem_filterMap] at hx
          obtain ⟨e', ⟨q, hq, hfq⟩, rfl⟩ := hx
          have h1 : e.id = p.1 := hf p (by simp) e hfp
          have h2 : e'.id = q.1 := hf q (by simp [hq]) e' hfq
          rw [h1, h2]
          exact hhead q.1 (List.mem_map_of_mem Prod.fst hq)

/-- Claim C1 (counterexample): the claim says an unsigned wire value outside
the 16-bit signed range (65536) and a non-numeric string ("abc") are decode
failures that propagate to the record level; in the code both decode
successfully to absence, and a whole Position record containing the
out-of-range bearing decodes successfully. -/
theorem bearing_failure_swallowed_cex :
    deserialize_bearing (Json.num (JNum.u 65536)) = Except.ok none ∧
    deserialize_bearing (Json.str "abc") = Except.ok none ∧
    decodePosition (Json.obj [("latitude", Json.num (JNum.u 0)),
      ("longitude", Json.num (JNum.u 0)),
      ("bearing", Json.num (JNum.u 65536))]) =
      Except.ok ⟨0, 0, none, none, none⟩ := by
  exact ⟨rfl, by decide, by decide⟩

/-- Claim C1 (amended): for the bearing decoder, an unsigned wire value
outside the 16-bit signed range and a string that does not parse as a
number decode to absence (none), never to a field-level or record-level
failure. -/
theorem bearing_failures_yield_absence (n : Nat) (s : String) :
    (32767 < n → deserialize_bearing (Json.num (JNum.u n)) = Except.ok none) ∧
    (parseNum s = none → deserialize_bearing (Json.str s) = Except.ok none) ∧
    (32767 < n →
      decodePosition (Json.obj [("latitude", Json.num (JNum.u 0)),
        ("longitude", Json.num (JNum.u 0)),
        ("bearing", Json.num (JNum.u n))]) =
        Except.ok ⟨0, 0, none, none, none⟩) := by
  have hbear : 32767 < n →
      deserialize_bearing (Json.num (JNum.u n)) = Except.ok none := by
    intro h
    simp [deserialize_bearing, bearingVisitor, Nat.not_le.mpr h, Except.toOption]
  refine ⟨hbear, ?_, ?_⟩
  · intro h
    simp [deserialize_bearing, bearingVisitor, h, Except.toOption]
  · intro h
    simp [decodePosition, reqField, optField, defField, jLookup, List.find?,
      decFloat, hbear h, Bind.bind, Except.bind, pure, Except.pure]

/-- Witness for the amended claim C1 at the concrete inputs 65537 and
the string "4x2". -/
theorem bearing_failures_yield_absence_witness :
    deserialize_bearing (Json.num (JNum.u 65537)) = Except.ok none ∧
    deserialize_bearing (Json.str "4x2") = Except.ok none := by
  have h := bearing_failures_yield_absence 65537 "4x2"
  exact ⟨h.1 (by decide), h.2.1 (by decide)⟩

/-- Claim C9: the bearing decoder is total — every wire value decodes
successfully, with none for every shape it cannot interpret (null, objects,
arrays, booleans, out-of-range integers, non-numeric strings), so it never
propagates a decode error. -/
theorem deserialize_bearing_total (j : Json) (fs : List (String × Json))
    (xs : List Json) (b : Bool) (n : Nat) (s : String) :
    (∃ r, deserialize_bearing j = Except.ok r) ∧
    deserialize_bearing Json.null = Except.ok none ∧
    deserialize_bearing (Json.obj fs) = Except.ok none ∧
    deserialize_bearing (Json.arr xs) = Except.ok none ∧
    deserialize_bearing (Json.bool b) = Except.ok none ∧
    (32767 < n → deserialize_bearing (Json.num (JNum.u n)) = Except.ok none) ∧
    (parseNum s = none → deserialize_bearing (Json.str s) = Except.ok none) := by
  refine ⟨⟨(bearingVisitor j).toOption, rfl⟩, rfl, rfl, rfl, rfl, ?_, ?_⟩
  · intro h
    simp [deserialize_bearing, bearingVisitor, Nat.not_le.mpr h, Except.toOption]
  · intro h
    simp [deserialize_bearing, bearingVisitor, h, Except.toOption]

/-- Witness for claim C9 at the concrete inputs 70000 and "xyz". -/
theorem deserialize_bearing_total_witness :
    deserialize_bearing (Json.num (JNum.u 70000)) = Except.ok none ∧
    deserialize_bearing (Json.str "xyz") = Except.ok none := by
  have h := deserialize_bearing_total Json.null [] [] true 70000 "xyz"
  exact ⟨h.2.2.2.2.2.1 (by decide), h.2.2.2.2.2.2 (by decide)⟩

/-- Claim C2 (counterexample): the claim says the matched entity's
trip_update replaces the vehicle entity's trip_update even when absent;
in the code, when the matched entity entT has no trip_update, the merged
entity keeps entV's own trip_update instead of having it overwritten to
none. -/
theorem merge_preserves_trip_update_cex :
    lookupId (indexById [entT, entV]) "T1" = some entT ∧
    entT.trip_update = none ∧
    entV.trip_update = some tuDelay99 ∧
    merge entV (indexById [entT, entV]) = some entV ∧
    merge entV (indexById [entT, entV]) ≠ some { entV with trip_update := none } := by
  decide

/-- Claim C2 (amended): when the vehicle entity's resolved trip_id matches
an index entry, the merged entity is a copy of the vehicle entity whose
trip_update is replaced by the matched entity's trip_update only when that
trip_update is present; when it is absent the vehicle entity's own
trip_update is preserved. -/
theorem merge_trip_update_replacement (ent : Entity) (hm : List (String × Entity))
    (vp : VehiclePosition) (td : TripDescriptor) (tid : String) (tue : Entity)
    (h1 : ent.vehicle = some vp) (h2 : vp.trip = some td)
    (h3 : td.trip_id = some tid) (h4 : lookupId hm tid = some tue) :
    (∀ tu, tue.trip_update = some tu →
      merge ent hm = some { ent with trip_update := some tu }) ∧
    (tue.trip_update = none → merge ent hm = some ent) := by
  constructor
  · intro tu htu
    simp [merge, h1, h2, h3, h4, htu, Bind.bind, Option.bind]
  · intro htu
    simp [merge, h1, h2, h3, h4, htu, Bind.bind, Option.bind]

/-- Witness for the amended claim C2: the replacement case at a concrete
input where entTU carries a trip update. -/
theorem merge_trip_update_replacement_witness :
    merge entV (indexById [entTU, entV]) =
      some { entV with trip_update := some tuDelay30 } := by
  have h := merge_trip_update_replacement entV (indexById [entTU, entV])
    vpT1 tdT1 "T1" entTU (by decide) (by decide) (by decide) (by decide)
  exact h.1 tuDelay30 (by decide)

/-- Claim C3 (counterexample): the claim says an empty trip-updates side
forces an empty merged output; the code fetches one combined feed and
indexes every entity, so a vehicle-position entity whose id equals its own
trip id matches itself and is emitted although no entity carries a
trip_update. -/
theorem empty_trip_updates_nonempty_output_cex :
    entSelf.trip_update = none ∧
    fetchCombinedMerged [entSelf] = [entSelf] ∧
    fetchCombinedMerged [entSelf] ≠ [] := by
  decide

/-- Claim C3 (amended): the code fetches a single combined feed; if that
feed contains no entity carrying a vehicle position, the merged output is
empty, regardless of any trip-update entities. -/
theorem no_vehicle_entities_empty_output (es : List Entity)
    (h : ∀ e ∈ es, e.vehicle = none) : fetchCombinedMerged es = [] := by
  unfold fetchCombinedMerged
  rw [List.filterMap_eq_nil_iff]
  intro p hp
  have hmem := (indexById_pair es p hp).1
  have hv := h p.2 hmem
  simp [merge, hv, Bind.bind, Option.bind]

/-- Witness for the amended claim C3 at a concrete feed of two entities
without vehicle positions. -/
theorem no_vehicle_entities_empty_output_witness :
    fetchCombinedMerged [entT, entTU] = [] :=
  no_vehicle_entities_empty_output [entT, entTU] (by decide)

/-- Claim C4 (counterexample): the claim says a vehicle-position entity
whose trip id matches no entity in the trip-updates index is dropped; in
the code the index holds every entity of the single combined feed, so
entSelf (whose trip id T1 matches no trip-update-carrying entity — its
only match is itself, which has no trip_update) is still emitted. -/
theorem unmatched_trip_update_emitted_cex :
    entSelf.trip_update = none ∧
    entSelf.vehicle = some vpT1 ∧
    vpT1.trip = some tdT1 ∧
    tdT1.trip_id = some "T1" ∧
    entSelf ∈ fetchCombinedMerged [entSelf] := by
  decide

/-- Claim C4 (amended): the merge drops an entity whose chain
vehicle → trip descriptor → trip_id has any absent link (in particular any
entity without a vehicle position, which includes every trip-updates-only
entity), and drops an entity whose resolved trip_id matches no id in the
index of all entities of the combined feed; every merged output entity
arises from an index entry whose merge succeeded. -/
theorem merge_drop_policy (es : List Entity) (ent : Entity) (e : Entity) :
    ((ent.vehicle.bind VehiclePosition.trip).bind TripDescriptor.trip_id = none →
      merge ent (indexById es) = none) ∧
    (∀ tid,
      (ent.vehicle.bind VehiclePosition.trip).bind TripDescriptor.trip_id = some tid →
      lookupId (indexById es) tid = none → merge ent (indexById es) = none) ∧
    (ent.vehicle = none → merge ent (indexById es) = none) ∧
    (e ∈ fetchCombinedMerged es →
      ∃ p ∈ indexById es, merge p.2 (indexById es) = some e) := by
  refine ⟨?_, ?_, ?_, ?_⟩
  · intro h
    cases hveh : ent.vehicle with
    | none => simp [merge, hveh, Bind.bind, Option.bind]
    | some vp =>
        cases htr : vp.trip with
        | none => simp [merge, hveh, htr, Bind.bind, Option.bind]
        | some td =>
            cases hti : td.trip_id with
            | none => simp [merge, hveh, htr, hti, Bind.bind, Option.bind]
            | some tid =>
                rw [hveh] at h
                simp [htr, hti, Option.bind] at h
  · intro tid h hlook
    cases hveh : ent.vehicle with
    | none => simp [merge, hveh, Bind.bind, Option.bind]
    | some vp =>
        cases htr : vp.trip with
        | none => simp [merge, hveh, htr, Bind.bind, Option.bind]
        | some td =>
            cases hti : td.trip_id with
            | none => simp [merge, hveh, htr, hti, Bind.bind, Option.bind]
            | some tid' =>
                rw [hveh] at h
                simp [htr, hti, Option.bind] at h
                subst h
                simp [merge, hveh, htr, hti, hlook, Bind.bind, Option.bind]
  · intro h
    simp [merge, h, Bind.bind, Option.bind]
  · intro h
    unfold fetchCombinedMerged at h
    rw [List.mem_filterMap] at h
    obtain ⟨p, hp, hm⟩ := h
    exact ⟨p, hp, hm⟩

/-- Witness for the amended claim C4: a trip-updates-only entity (no
vehicle position) is dropped at a concrete input. -/
theorem merge_drop_policy_witness :
    merge entTU (indexById [entTU]) = none :=
  (merge_drop_policy [entTU] entTU entTU).2.2.1 (by decide)

/-- Claim C5: substr_to_char is intended to return the substring before the
first separator, but it feeds the byte index produced by str::find into a
character-counted take; on the input with the two-byte character é before
the separator the result includes the separator itself, contradicting the
claim, while the ASCII and no-separator cases behave as documented. -/
theorem substr_to_char_byte_char_mismatch :
    substr_to_char "é-x" '-' = some "é-" ∧
    substr_to_char "é-x" '-' ≠ some "é" ∧
    substr_to_char "123-v2" '-' = some "123" ∧
    substr_to_char "noseparator" '-' = none := by
  decide

/-- Claim C8: indexing the feed by id is last-write-wins — looking up any
key in the index built by fetch_combined returns exactly the latest entity
in input order bearing that id (and indexing is total, so duplicate ids
never make the merge fail). -/
theorem indexById_last_write_wins (es : List Entity) (k : String) :
    lookupId (indexById es) k = specLastWriteWins es k := by
  unfold indexById specLastWriteWins
  rw [lookupId_foldl]
  rfl

/-- Claim C6: when the corresponding field is entirely absent from the
input object, decoding substitutes exactly these defaults —
StopTimeUpdate.schedule_relationship becomes Scheduled,
VehiclePosition.current_status becomes InTransitTo, Header.incrementality
becomes FullDataset and Entity.is_deleted becomes false — and, as the
concrete minimal objects show, absence of these fields is never a decode
failure. -/
theorem decode_absent_field_defaults :
    (∀ fs stu, jLookup fs "schedule_relationship" = none →
      decodeStopTimeUpdate (Json.obj fs) = Except.ok stu →
      stu.schedule_relationship = ScheduleRelationship.Scheduled) ∧
    (∀ fs vp, jLookup fs "current_status" = none →
      decodeVehiclePosition (Json.obj fs) = Except.ok vp →
      vp.current_status = VehicleStopStatus.InTransitTo) ∧
    (∀ fs hd, jLookup fs "incrementality" = none →
      decodeHeader (Json.obj fs) = Except.ok hd →
      hd.incrementality = Incrementality.FullDataset) ∧
    (∀ fs ent, jLookup fs "is_deleted" = none →
      decodeEntity (Json.obj fs) = Except.ok ent →
      ent.is_deleted = false) ∧
    decodeStopTimeUpdate (Json.obj []) =
      Except.ok ⟨none, none, none, none, ScheduleRelationship.Scheduled⟩ ∧
    decodeVehiclePosition (Json.obj []) =
      Except.ok ⟨none, none, none, none, none, VehicleStopStatus.InTransitTo,
        none, none, none⟩ ∧
    decodeHeader (Json.obj [("gtfs_realtime_version", Json.str "2.0")]) =
      Except.ok ⟨"2.0", Incrementality.FullDataset, none⟩ ∧
    decodeEntity (Json.obj [("id", Json.str "e")]) =
      Except.ok ⟨"e", none, none, false⟩ := by
  refine ⟨?_, ?_, ?_, ?_, by decide, by decide, by decide, by decide⟩
  · intro fs stu hnone hdec
    simp only [decodeStopTimeUpdate] at hdec
    obtain ⟨a1, h1, hdec⟩ := exceptBind_ok hdec
    obtain ⟨a2, h2, hdec⟩ := exceptBind_ok hdec
    obtain ⟨a3, h3, hdec⟩ := exceptBind_ok hdec
    obtain ⟨a4, h4, hdec⟩ := exceptBind_ok hdec
    obtain ⟨a5, h5, hdec⟩ := exceptBind_ok hdec
    simp only [defField, hnone, Except.ok.injEq] at h5
    simp only [pure, Except.pure, Except.ok.injEq] at hdec
    subst hdec
    exact h5.symm
  · intro fs vp hnone hdec
    simp only [decodeVehiclePosition] at hdec
    obtain ⟨a1, h1, hdec⟩ := exceptBind_ok hdec
    obtain ⟨a2, h2, hdec⟩ := exceptBind_ok hdec
    obtain ⟨a3, h3, hdec⟩ := exceptBind_ok hdec
    obtain ⟨a4, h4, hdec⟩ := exceptBind_ok hdec
    obtain ⟨a5, h5, hdec⟩ := exceptBind_ok hdec
    obtain ⟨a6, h6, hdec⟩ := exceptBind_ok hdec
    obtain ⟨a7, h7, hdec⟩ := exceptBind_ok hdec
    obtain ⟨a8, h8, hdec⟩ := exceptBind_ok hdec
    obtain ⟨a9, h9, hdec⟩ := exceptBind_ok hdec
    simp only [defField, hnone, Except.ok.injEq] at h6
    simp only [pure, Except.pure, Except.ok.injEq] at hdec
    subst hdec
    exact h6.symm
  · intro fs hd hnone hdec
    simp only [decodeHeader] at hdec
    obtain ⟨a1, h1, hdec⟩ := exceptBind_ok hdec
    obtain ⟨a2, h2, hdec⟩ := exceptBind_ok hdec
    obtain ⟨a3, h3, hdec⟩ := exceptBind_ok hdec
    simp only [defField, hnone, Except.ok.injEq] at h2
    simp only [pure, Except.pure, Except.ok.injEq] at hdec
    subst hdec
    exact h2.symm
  · intro fs ent hnone hdec
    simp only [decodeEntity] at hdec
    obtain ⟨a1, h1, hdec⟩ := exceptBind_ok hdec
    obtain ⟨a2, h2, hdec⟩ := exceptBind_ok hdec
    obtain ⟨a3, h3, hdec⟩ := exceptBind_ok hdec
    obtain ⟨a4, h4, hdec⟩ := exceptBind_ok hdec
    simp only [defField, hnone, Except.ok.injEq] at h4
    simp only [pure, Except.pure, Except.ok.injEq] at hdec
    subst hdec
    exact h4.symm

/-- Witness for claim C6: the defaulted projection obtained by applying the
theorem to the empty object, whose field is certainly absent. -/
theorem decode_absent_field_defaults_witness :
    (⟨none, none, none, none, ScheduleRelationship.Scheduled⟩ :
      StopTimeUpdate).schedule_relationship = ScheduleRelationship.Scheduled :=
  decode_absent_field_defaults.1 []
    ⟨none, none, none, none, ScheduleRelationship.Scheduled⟩ rfl (by decide)

/-- Claim C7: for every strictly typed enum field, a wire code not listed
among that enum's variants is a decode failure for the field — a typed
error value, not a crash and not a silently coerced variant. -/
theorem strict_enum_unknown_code_fails (n : Nat) :
    (n ≠ 0 → n ≠ 1 → n ≠ 2 →
      decodeScheduleRelationship (Json.num (JNum.u n)) =
        Except.error "invalid ScheduleRelationship code" ∧
      decodeVehicleStopStatus (Json.num (JNum.u n)) =
        Except.error "invalid VehicleStopStatus code") ∧
    (n ≠ 0 → n ≠ 1 →
      decodeIncrementality (Json.num (JNum.u n)) =
        Except.error "invalid Incrementality code") ∧
    (n ≠ 0 → n ≠ 1 → n ≠ 2 → n ≠ 3 →
      decodeSRTripDescriptor (Json.num (JNum.u n)) =
        Except.error "invalid ScheduleRelationship code for TripDescriptor") ∧
    (n ≠ 0 → n ≠ 1 → n ≠ 2 → n ≠ 3 → n ≠ 4 →
      decodeCongestionLevel (Json.num (JNum.u n)) =
        Except.error "invalid CongestionLevel code") ∧
    (n ≠ 0 → n ≠ 1 → n ≠ 2 → n ≠ 3 → n ≠ 4 → n ≠ 5 → n ≠ 6 →
      decodeOccupancyStatus (Json.num (JNum.u n)) =
        Except.error "invalid OccupancyStatus code") := by
  refine ⟨?_, ?_, ?_, ?_, ?_⟩ <;> intros <;>
    simp_all [decodeScheduleRelationship, decodeVehicleStopStatus,
      decodeIncrementality, decodeSRTripDescriptor, decodeCongestionLevel,
      decodeOccupancyStatus]

/-- Witness for claim C7 at the concrete unknown code 99. -/
theorem strict_enum_unknown_code_fails_witness :
    decodeScheduleRelationship (Json.num (JNum.u 99)) =
      Except.error "invalid ScheduleRelationship code" :=
  ((strict_enum_unknown_code_fails 99).1 (by decide) (by decide) (by decide)).1

/-- Claim C10: the merged output of fetch_combined never contains two
entities with the same id. -/
theorem fetchCombined_ids_nodup (es : List Entity) :
    (((fetchCombinedMerged es).map Entity.id).Pairwise (fun a b => a ≠ b)) := by
  unfold fetchCombinedMerged
  refine pairwise_ids_filterMap _ _ ?_ (indexById_keys_nodup es)
  intro p hp e he
  have hid := (indexById_pair es p hp).2
  have hme := merge_id p.2 (indexById es) e he
  rw [hme, hid]

end AT
